import Mathlib

/-!
Shallow embedding of the rent-vs-buy financial engine
(`src/lib/calculations/calculator.ts`) and of the growth-rate analytics
(the two `calculateGrowthRate` copies in the ABS data modules), together
with theorems settling the frozen claims about them.

Modelling conventions:
* JavaScript `number` arithmetic inside the engine only uses `+ - * /`,
  `Math.max`, `Math.abs`, `Math.min`, `Math.round` and natural-number
  exponents, so it is embedded over `ℚ`.  `Math.round` is `round : ℚ → ℤ`
  (both round halves toward positive infinity).  Division by zero is `0`
  in `ℚ` where IEEE gives `NaN`/`Infinity`; every theorem touching such a
  point states this in its doc comment.
* `Math.pow` with a fractional exponent (the CAGR analytics) is embedded
  over `ℝ` with `Real.rpow`.
* Loop-carried mutable locals become explicit state records; `throw`
  becomes `Except`, and a JavaScript crash from indexing past the end of
  an array (`undefined` dereference) becomes an `Option` result.
-/

namespace RentVsBuy

/-- A `{threshold, rate, base}` triple of the stamp-duty bracket tables
(`QLD_STAMP_DUTY_BRACKETS` in the configuration module). -/
structure Bracket where
  threshold : ℚ
  rate : ℚ
  base : ℚ
deriving DecidableEq

/-- A `{threshold, rate}` pair of `AU_TAX_BRACKETS`. -/
structure TaxBracket where
  threshold : ℚ
  rate : ℚ
deriving DecidableEq

/-- Modelled from the spec: the configuration module
`$lib/config/au-constants` is imported by the calculator but is not under
`src/`.  Per §9 of the spec ("pass as an explicit configuration object into
every entry point") its constant tables and scalars are carried abstractly
in this record; every theorem below quantifies over it or fixes an explicit
sample value, and no theorem depends on the concrete Australian numbers. -/
structure AUConstants where
  stampDutyBrackets : List Bracket
  taxBrackets : List TaxBracket
  medicareLevyRate : ℚ
  -- QLD_PROPERTY_COSTS
  councilRates : ℚ
  waterRates : ℚ
  insurance : ℚ
  maintenanceRate : ℚ
  -- INVESTMENT_ASSUMPTIONS
  propertyGrowthRate : ℚ
  rentalYieldGrowthRate : ℚ
  alternativeInvestmentReturn : ℚ
  -- TRANSACTION_COSTS
  buyerLegalFees : ℚ
  buildingInspection : ℚ
  pestInspection : ℚ
  -- LOAN_DEFAULTS
  lvrNoLMI : ℚ
  lmiRate : ℚ
  -- FIVE_PERCENT_DEPOSIT_SCHEME
  schemeEnabled : Bool
  propertyCapBrisbane : ℚ
  minimumDeposit : ℚ
deriving DecidableEq

/-- `PropertyInputs` from `calculator.ts`.  Optional fields are `Option`;
the loan term is a whole number of years (the source's `number` is always a
whole year count and is only used as `years * 12`, an exponent and a month
count). -/
structure PropertyInputs where
  propertyPrice : ℚ
  deposit : ℚ
  isFirstHome : Bool
  use5PercentScheme : Option Bool
  annualIncome : ℚ
  loanInterestRate : ℚ
  loanTermYears : ℕ
  weeklyRent : ℚ
  councilRates : Option ℚ
  waterRates : Option ℚ
  insurance : Option ℚ
  maintenanceRate : Option ℚ
  propertyGrowthRate : Option ℚ
  rentalYieldGrowthRate : Option ℚ
deriving DecidableEq

/-- The `advantage` field's two string values. -/
inductive Advantage where
  | buying
  | renting
deriving DecidableEq

/-- `YearlyResult` from `calculator.ts`. -/
structure YearlyResult where
  year : ℕ
  propertyValue : ℚ
  loanBalance : ℚ
  equity : ℚ
  yearlyOwnershipCost : ℚ
  cumulativeOwnershipCost : ℚ
  yearlyRentPaid : ℚ
  cumulativeRentPaid : ℚ
  investmentBalance : ℚ
  netPositionBuying : ℚ
  netPositionRenting : ℚ
  advantage : Advantage
  advantageAmount : ℚ
deriving DecidableEq

/-- `CalculationResult.upfrontCosts`. -/
structure UpfrontCosts where
  stampDuty : ℚ
  lmi : ℚ
  legalFees : ℚ
  inspections : ℚ
  total : ℚ
deriving DecidableEq

/-- `CalculationResult.loanDetails`. -/
structure LoanDetails where
  loanAmount : ℚ
  lvr : ℚ
  monthlyRepayment : ℚ
  totalInterestPaid : ℚ
deriving DecidableEq

/-- `CalculationResult.summary`. -/
structure Summary where
  breakEvenYear : Option ℕ
  advantage10Year : Advantage
  advantage10YearAmount : ℚ
  advantage20Year : Advantage
  advantage20YearAmount : ℚ
deriving DecidableEq

/-- `CalculationResult` from `calculator.ts`. -/
structure CalculationResult where
  upfrontCosts : UpfrontCosts
  loanDetails : LoanDetails
  yearlyBreakdown : List YearlyResult
  summary : Summary
deriving DecidableEq

/-!  ## Bracket evaluator: `calculateStampDuty`  -/

/-- The `for` loop of `calculateStampDuty` (lines 91–106): `duty` starts at
`0` and is overwritten (not accumulated) on each non-breaking iteration;
`price ≤ bracket.threshold` breaks, returning the last value written.  The
JavaScript `QLD_STAMP_DUTY_BRACKETS[i + 1]?.threshold || propertyPrice`
yields `propertyPrice` both when `i + 1` is out of range and when the next
threshold is `0` (falsy), which the `if b2.threshold = 0` branch mirrors.
The local `previousThreshold` of the source is assigned but never read and
is omitted. -/
def dutyLoop (price : ℚ) : List Bracket → ℚ → ℚ
  | [], duty => duty
  | b :: rest, duty =>
    if price ≤ b.threshold then duty
    else
      let nextThreshold : ℚ :=
        match rest with
        | [] => price
        | b2 :: _ => if b2.threshold = 0 then price else b2.threshold
      let taxableInBracket := min price nextThreshold - b.threshold
      dutyLoop price rest (b.base + taxableInBracket * b.rate)

/-- `calculateStampDuty` (lines 86–109), with the bracket table passed
explicitly (the source reads the global `QLD_STAMP_DUTY_BRACKETS`). -/
def calculateStampDuty (brackets : List Bracket) (propertyPrice : ℚ)
    (isFirstHome : Bool) : ℚ :=
  if isFirstHome ∧ propertyPrice ≤ 500000 then 0
  else ((round (dutyLoop propertyPrice brackets 0) : ℤ) : ℚ)

/-!  ## `calculateLMI`  -/

/-- `calculateLMI` (lines 114–142). -/
def calculateLMI (c : AUConstants) (loanAmount propertyPrice : ℚ)
    (isFirstHome use5PercentScheme : Bool) : ℚ :=
  let lvr := loanAmount / propertyPrice
  let depositPercent := 1 - lvr
  if use5PercentScheme ∧ isFirstHome ∧ c.schemeEnabled ∧
      propertyPrice ≤ c.propertyCapBrisbane ∧
      c.minimumDeposit ≤ depositPercent then 0
  else if lvr ≤ c.lvrNoLMI then 0
  else
    let lmiRate := c.lmiRate * (lvr - c.lvrNoLMI) * 2
    ((round (loanAmount * lmiRate) : ℤ) : ℚ)

/-!  ## Amortization engine  -/

/-- `calculateMonthlyRepayment` (lines 147–160): the fixed-payment annuity
formula, with NO special case for `annualRate = 0`.  In `ℚ` the division by
the then-zero denominator yields `0`; in the source's IEEE arithmetic it
yields `0 / 0 = NaN`. -/
def calculateMonthlyRepayment (loanAmount annualRate : ℚ) (years : ℕ) : ℚ :=
  let monthlyRate := annualRate / 12
  let numPayments := years * 12
  loanAmount * monthlyRate * (1 + monthlyRate) ^ numPayments /
    ((1 + monthlyRate) ^ numPayments - 1)

/-!  ## `calculateMarginalTaxRate`  -/

/-- The downward `for` loop of `calculateMarginalTaxRate` (lines 168–173),
expressed on the reversed bracket list: return the rate of the first
bracket (scanning from the highest threshold) with `threshold < income`,
or `0` if none matches. -/
def marginalRateLoop (income : ℚ) : List TaxBracket → ℚ
  | [] => 0
  | b :: rest => if b.threshold < income then b.rate else marginalRateLoop income rest

/-- `calculateMarginalTaxRate` (lines 165–176). -/
def calculateMarginalTaxRate (c : AUConstants) (income : ℚ) : ℚ :=
  marginalRateLoop income c.taxBrackets.reverse + c.medicareLevyRate

/-!  ## Growth-rate analytics (`calculateGrowthRate`)  -/

/-- Error kinds thrown by the growth-rate analytics.  The source throws
`Error` values with fixed messages; `insufficientDataPoints` stands for
"Insufficient data points to calculate growth rate" and `invalidBaseValue`
for "Invalid data: zero or negative prices". -/
inductive GrowthRateError where
  | insufficientDataPoints
  | invalidBaseValue
deriving DecidableEq

/-- `calculateGrowthRate` from the ABS module with the base-value guard
(`src/unnamed/part_003`, lines 189–210).  `data` carries the observation
values (`.value` of each `ABSDataPoint`; the `period` strings play no role
in this function).  Note the guard tests `oldValue === 0` only, and the
CAGR exponent divides by `quartersBack / 4` — the clipped window — not by
the requested `yearsToAverage`. -/
noncomputable def calculateGrowthRate (data : List ℚ) (yearsToAverage : ℕ) :
    Except GrowthRateError ℝ :=
  if data.length < 4 then .error .insufficientDataPoints
  else
    let latestValue : ℚ := data.getD (data.length - 1) 0
    let quartersBack : ℕ := min (yearsToAverage * 4) (data.length - 1)
    let oldValue : ℚ := data.getD (data.length - 1 - quartersBack) 0
    if oldValue = 0 then .error .invalidBaseValue
    else
      let years : ℝ := (quartersBack : ℝ) / 4
      .ok (((latestValue : ℝ) / (oldValue : ℝ)) ^ ((1 : ℝ) / years) - 1)

/-- The second copy of `calculateGrowthRate`, from the index-data ABS
module (`src/unnamed/part_002`, lines 145–163): identical except that it
has no `oldValue` guard at all. -/
noncomputable def calculateGrowthRateIndexData (data : List ℚ)
    (yearsToAverage : ℕ) : Except GrowthRateError ℝ :=
  if data.length < 4 then .error .insufficientDataPoints
  else
    let latestValue : ℚ := data.getD (data.length - 1) 0
    let quartersBack : ℕ := min (yearsToAverage * 4) (data.length - 1)
    let oldValue : ℚ := data.getD (data.length - 1 - quartersBack) 0
    let years : ℝ := (quartersBack : ℝ) / 4
    .ok (((latestValue : ℝ) / (oldValue : ℝ)) ^ ((1 : ℝ) / years) - 1)

/-!  ## Projection orchestrator: `calculateRentVsBuy` (lines 181–331)  -/

/-- One month of the amortization sub-simulation (lines 240–244):
`interest = balance · monthlyRate`; `principal = M − interest`;
`balance = max(0, balance − principal)`. -/
def monthStep (monthlyRepayment monthlyRate bal : ℚ) : ℚ :=
  let interestPayment := bal * monthlyRate
  let principalPayment := monthlyRepayment - interestPayment
  max 0 (bal - principalPayment)

/-- The inner month loop (lines 239–247): run `monthStep` up to `m` times,
breaking early as soon as the balance reaches `0` (the source's
`if (currentLoanBalance === 0) break`).  The loop also accumulates
`yearlyInterestPaid`, which no output field reads; it is omitted. -/
def monthLoop (monthlyRepayment monthlyRate : ℚ) : ℕ → ℚ → ℚ
  | 0, bal => bal
  | m + 1, bal =>
    let bal' := monthStep monthlyRepayment monthlyRate bal
    if bal' = 0 then bal' else monthLoop monthlyRepayment monthlyRate m bal'

/-- The per-year parameters of the projection loop, fixed before the loop
starts (lines 198–229): resolved cost overrides, growth rates, the fixed
monthly repayment and its annual total, and the monthly interest rate. -/
structure Params where
  propertyGrowthRate : ℚ
  rentalYieldGrowthRate : ℚ
  councilRates : ℚ
  waterRates : ℚ
  insurance : ℚ
  maintenanceRate : ℚ
  monthlyRepayment : ℚ
  annualRepayment : ℚ
  monthlyRate : ℚ
  altReturn : ℚ
deriving DecidableEq

/-- The loop-carried mutable locals of `calculateRentVsBuy`
(lines 222–227). -/
structure ProjState where
  propertyValue : ℚ
  loanBalance : ℚ
  cumulativeOwnershipCost : ℚ
  cumulativeRentPaid : ℚ
  investmentBalance : ℚ
  weeklyRent : ℚ
deriving DecidableEq

/-- The two-branch investment-balance update (lines 262–269): compound the
balance by the alternative return, add the yearly savings only when they
are positive, then add them again in a separate branch when they are
negative. -/
def investmentUpdate (bal savings altReturn : ℚ) : ℚ :=
  let b1 := bal * (1 + altReturn) + (if 0 < savings then savings else 0)
  if savings < 0 then b1 + savings else b1

/-- One iteration of the year loop (lines 231–293): property growth, the
amortization sub-simulation, ownership costs, rent, the investment update,
net positions and the advantage comparison, producing the next state and
the appended `YearlyResult`. -/
def yearStep (p : Params) (s : ProjState) (year : ℕ) :
    ProjState × YearlyResult :=
  let currentPropertyValue := s.propertyValue * (1 + p.propertyGrowthRate)
  let currentLoanBalance :=
    monthLoop p.monthlyRepayment p.monthlyRate 12 s.loanBalance
  let equity := currentPropertyValue - currentLoanBalance
  let maintenance := currentPropertyValue * p.maintenanceRate
  let yearlyOwnershipCost :=
    p.councilRates + p.waterRates + p.insurance + maintenance
  let cumulativeOwnershipCost :=
    s.cumulativeOwnershipCost + yearlyOwnershipCost + p.annualRepayment
  let yearlyRentPaid := s.weeklyRent * 52
  let cumulativeRentPaid := s.cumulativeRentPaid + yearlyRentPaid
  let currentWeeklyRent := s.weeklyRent * (1 + p.rentalYieldGrowthRate)
  let yearlySavings := p.annualRepayment + yearlyOwnershipCost - yearlyRentPaid
  let investmentBalance :=
    investmentUpdate s.investmentBalance yearlySavings p.altReturn
  let netPositionBuying := equity
  let netPositionRenting := investmentBalance
  let advantage : Advantage :=
    if netPositionRenting < netPositionBuying then .buying else .renting
  let advantageAmount := |netPositionBuying - netPositionRenting|
  ({ propertyValue := currentPropertyValue
     loanBalance := currentLoanBalance
     cumulativeOwnershipCost := cumulativeOwnershipCost
     cumulativeRentPaid := cumulativeRentPaid
     investmentBalance := investmentBalance
     weeklyRent := currentWeeklyRent },
   { year := year
     propertyValue := currentPropertyValue
     loanBalance := currentLoanBalance
     equity := equity
     yearlyOwnershipCost := yearlyOwnershipCost
     cumulativeOwnershipCost := cumulativeOwnershipCost
     yearlyRentPaid := yearlyRentPaid
     cumulativeRentPaid := cumulativeRentPaid
     investmentBalance := investmentBalance
     netPositionBuying := netPositionBuying
     netPositionRenting := netPositionRenting
     advantage := advantage
     advantageAmount := advantageAmount })

/-- The year loop itself: `n` remaining iterations starting at the 1-based
index `year`, appending one `YearlyResult` per year. -/
def projLoop (p : Params) : ℕ → ℕ → ProjState → List YearlyResult
  | 0, _, _ => []
  | n + 1, year, s =>
    let step := yearStep p s year
    step.2 :: projLoop p n (year + 1) step.1

/-- `loanAmount` (line 182). -/
def loanAmountOf (inputs : PropertyInputs) : ℚ :=
  inputs.propertyPrice - inputs.deposit

/-- `monthlyRepayment` (lines 198–202). -/
def monthlyRepaymentOf (inputs : PropertyInputs) : ℚ :=
  calculateMonthlyRepayment (loanAmountOf inputs) inputs.loanInterestRate
    inputs.loanTermYears

/-- `totalUpfront` (lines 186–195): stamp duty + LMI + legal fees +
inspections. -/
def totalUpfrontOf (c : AUConstants) (inputs : PropertyInputs) : ℚ :=
  calculateStampDuty c.stampDutyBrackets inputs.propertyPrice
      inputs.isFirstHome +
    calculateLMI c (loanAmountOf inputs) inputs.propertyPrice
      inputs.isFirstHome (inputs.use5PercentScheme.getD false) +
    c.buyerLegalFees + (c.buildingInspection + c.pestInspection)

/-- The pre-loop parameter resolution (lines 204–229): `??`-defaulting of
the optional overrides, `annualRepayment = monthlyRepayment * 12`, and
`monthlyRate = loanInterestRate / 12`. -/
def mkParams (c : AUConstants) (inputs : PropertyInputs) : Params where
  propertyGrowthRate := inputs.propertyGrowthRate.getD c.propertyGrowthRate
  rentalYieldGrowthRate :=
    inputs.rentalYieldGrowthRate.getD c.rentalYieldGrowthRate
  councilRates := inputs.councilRates.getD c.councilRates
  waterRates := inputs.waterRates.getD c.waterRates
  insurance := inputs.insurance.getD c.insurance
  maintenanceRate := inputs.maintenanceRate.getD c.maintenanceRate
  monthlyRepayment := monthlyRepaymentOf inputs
  annualRepayment := monthlyRepaymentOf inputs * 12
  monthlyRate := inputs.loanInterestRate / 12
  altReturn := c.alternativeInvestmentReturn

/-- The initial loop state (lines 222–227): property value at the price,
balance at the loan amount, cumulative ownership cost seeded with the
upfront total, investment balance seeded with the deposit. -/
def initState (c : AUConstants) (inputs : PropertyInputs) : ProjState where
  propertyValue := inputs.propertyPrice
  loanBalance := loanAmountOf inputs
  cumulativeOwnershipCost := totalUpfrontOf c inputs
  cumulativeRentPaid := 0
  investmentBalance := inputs.deposit
  weeklyRent := inputs.weeklyRent

/-- `yearlyBreakdown` after the loop has run for `yearsToProject` years. -/
def yearlyTimeline (c : AUConstants) (inputs : PropertyInputs)
    (yearsToProject : ℕ) : List YearlyResult :=
  projLoop (mkParams c inputs) yearsToProject 1 (initState c inputs)

/-- The break-even scan (lines 296–302): the year of the first record whose
advantage is `buying`, if any. -/
def breakEvenYearOf (l : List YearlyResult) : Option ℕ :=
  (l.find? fun r => decide (r.advantage = Advantage.buying)).map (·.year)

/-- `calculateRentVsBuy` (lines 181–331).  The summary reads
`yearlyBreakdown[9]` and `yearlyBreakdown[19]` unconditionally (lines
305–306); when either index is past the end the source dereferences
`undefined` and crashes with a `TypeError`, modelled as a `none` result. -/
def calculateRentVsBuy (c : AUConstants) (inputs : PropertyInputs)
    (yearsToProject : ℕ) : Option CalculationResult :=
  let loanAmount := loanAmountOf inputs
  let yearlyBreakdown := yearlyTimeline c inputs yearsToProject
  match yearlyBreakdown.get? 9, yearlyBreakdown.get? 19 with
  | some year10, some year20 =>
    some
      { upfrontCosts :=
          { stampDuty :=
              calculateStampDuty c.stampDutyBrackets inputs.propertyPrice
                inputs.isFirstHome
            lmi :=
              calculateLMI c loanAmount inputs.propertyPrice
                inputs.isFirstHome (inputs.use5PercentScheme.getD false)
            legalFees := c.buyerLegalFees
            inspections := c.buildingInspection + c.pestInspection
            total := totalUpfrontOf c inputs }
        loanDetails :=
          { loanAmount := loanAmount
            lvr := loanAmount / inputs.propertyPrice
            monthlyRepayment := monthlyRepaymentOf inputs
            totalInterestPaid :=
              monthlyRepaymentOf inputs * inputs.loanTermYears * 12 -
                loanAmount }
        yearlyBreakdown := yearlyBreakdown
        summary :=
          { breakEvenYear := breakEvenYearOf yearlyBreakdown
            advantage10Year := year10.advantage
            advantage10YearAmount := year10.advantageAmount
            advantage20Year := year20.advantage
            advantage20YearAmount := year20.advantageAmount } }
  | _, _ => none

/-!  ## Specification-side definitions and sample values  -/

/-- Modelled from the spec (§4.1): the bracket with the greatest
`threshold < v` — on an ascending-sorted table, the last bracket whose
threshold lies strictly below `v`.  Used to compare the duty loop against
the spec's description. -/
def lastBelow (brackets : List Bracket) (v : ℚ) : Option Bracket :=
  (brackets.filter fun b => decide (b.threshold < v)).getLast?

/-- A concrete configuration record used by the closed sample runs.  The
projection facts proved about it (loan balances, advantage bookkeeping,
summary indexing) do not depend on any of these values: the claim theorems
quantify over every `AUConstants`. -/
def sampleConstants : AUConstants where
  stampDutyBrackets := [⟨5000, 0, 0⟩, ⟨540000, 9/200, 17325⟩]
  taxBrackets := [⟨18200, 19/100⟩, ⟨45000, 13/40⟩]
  medicareLevyRate := 1/50
  councilRates := 0
  waterRates := 0
  insurance := 0
  maintenanceRate := 0
  propertyGrowthRate := 0
  rentalYieldGrowthRate := 0
  alternativeInvestmentReturn := 0
  buyerLegalFees := 0
  buildingInspection := 0
  pestInspection := 0
  lvrNoLMI := 4/5
  lmiRate := 0
  schemeEnabled := false
  propertyCapBrisbane := 0
  minimumDeposit := 0

/-- A scenario satisfying the §3 invariants with `interestRate = 0`:
`0 < deposit = 50 ≤ price = 100`, a one-year loan term.  Every optional
override is supplied, so the configuration defaults play no role in its
projection. -/
def zeroRateInputs : PropertyInputs where
  propertyPrice := 100
  deposit := 50
  isFirstHome := false
  use5PercentScheme := none
  annualIncome := 0
  loanInterestRate := 0
  loanTermYears := 1
  weeklyRent := 0
  councilRates := some 0
  waterRates := some 0
  insurance := some 0
  maintenanceRate := some 0
  propertyGrowthRate := some 0
  rentalYieldGrowthRate := some 0

/-- A scenario satisfying the §3 invariants with a strictly positive
interest rate, used by the witnesses of the universally quantified
projection theorems. -/
def positiveRateInputs : PropertyInputs where
  propertyPrice := 100
  deposit := 50
  isFirstHome := false
  use5PercentScheme := none
  annualIncome := 50000
  loanInterestRate := 12
  loanTermYears := 1
  weeklyRent := 10
  councilRates := some 0
  waterRates := some 0
  insurance := some 0
  maintenanceRate := some 0
  propertyGrowthRate := some 0
  rentalYieldGrowthRate := some 0

/-!  ## C1: the zero-interest special case  -/

/-- C1: the claim states that `calculateMonthlyRepayment(P, 0, n)` is
special-cased to return `P / (n·12)` and never `NaN`.  The source has no
such guard: at `annualRate = 0` the annuity denominator
`(1 + 0/12)^(n·12) − 1` is exactly `0`, so the source divides `0` by `0`
(IEEE `NaN`).  In the `ℚ` embedding, where division by zero is `0`, the
function returns `0`, not `P / (n·12) = 1000`.  Shown here at
`P = 120000`, `n = 10`. -/
theorem C1_zero_rate_unguarded :
    (1 + (0 : ℚ) / 12) ^ (10 * 12) - 1 = 0 ∧
    calculateMonthlyRepayment 120000 0 10 = 0 ∧
    (120000 : ℚ) / (10 * 12) = 1000 ∧
    calculateMonthlyRepayment 120000 0 10 ≠ 120000 / (10 * 12) := by
  refine ⟨by norm_num, ?_, by norm_num, ?_⟩ <;>
    norm_num [calculateMonthlyRepayment]

/-!  ## C4: the two-branch investment update  -/

/-- C4: the two-branch investment-balance update (add positive savings,
then add negative savings in a second branch) is extensionally equal to
the single signed update `bal·(1 + altReturn) + savings` for every sign of
the savings; consequently there is no floor at zero — the update can
output a negative balance. -/
theorem C4_investment_update_signed :
    (∀ bal savings altReturn : ℚ,
        investmentUpdate bal savings altReturn =
          bal * (1 + altReturn) + savings) ∧
    investmentUpdate 0 (-1) 0 < 0 := by
  constructor
  · intro bal savings altReturn
    simp only [investmentUpdate]
    split_ifs <;> linarith
  · norm_num [investmentUpdate]

/-!  ## C7: the progressive-duty loop  -/

/-- Unfolding equation for one iteration of the duty loop. -/
theorem dutyLoop_cons (v : ℚ) (b : Bracket) (rest : List Bracket) (d : ℚ) :
    dutyLoop v (b :: rest) d =
      if v ≤ b.threshold then d
      else
        dutyLoop v rest
          (b.base +
            (min v
                (match rest with
                 | [] => v
                 | b2 :: _ => if b2.threshold = 0 then v else b2.threshold) -
              b.threshold) * b.rate) := rfl

/-- `getLast?` skips the head whenever the tail is nonempty. -/
theorem getLast?_cons_ne_nil {α : Type} (a : α) {l : List α} (h : l ≠ []) :
    (a :: l).getLast? = l.getLast? := by
  cases l with
  | nil => exact absurd rfl h
  | cons x xs => exact List.getLast?_cons_cons

/-- On an ascending-sorted table of nonnegative thresholds, the duty loop
returns its accumulator when `v` lies at or below every threshold, and
otherwise `base + (v − threshold) · rate` of the last bracket whose
threshold is strictly below `v`. -/
theorem dutyLoop_spec (v : ℚ) (bs : List Bracket) (d : ℚ)
    (hsort : bs.Pairwise fun a b => a.threshold < b.threshold)
    (hnn : ∀ b ∈ bs, 0 ≤ b.threshold) :
    dutyLoop v bs d =
      match lastBelow bs v with
      | none => d
      | some bk => bk.base + (v - bk.threshold) * bk.rate := by
  induction bs generalizing d with
  | nil => simp [dutyLoop, lastBelow]
  | cons b rest ih =>
    rw [List.pairwise_cons] at hsort
    obtain ⟨hlt, hpw⟩ := hsort
    rw [dutyLoop_cons]
    by_cases hv : v ≤ b.threshold
    · rw [if_pos hv]
      have hfilter :
          (b :: rest).filter (fun x => decide (x.threshold < v)) = [] := by
        rw [List.filter_eq_nil_iff]
        intro x hx
        simp only [decide_eq_true_eq, not_lt]
        rcases List.mem_cons.mp hx with h | h
        · rw [h]; exact hv
        · have := hlt x h; linarith
      rw [lastBelow, hfilter, List.getLast?_nil]
    · rw [if_neg hv]
      push_neg at hv
      have hfb : (b :: rest).filter (fun x => decide (x.threshold < v)) =
          b :: rest.filter (fun x => decide (x.threshold < v)) := by
        rw [List.filter_cons, if_pos (by simpa using hv)]
      cases rest with
      | nil =>
        rw [lastBelow, hfb]
        simp [dutyLoop, min_self]
      | cons b2 rest2 =>
        have hb2 : b.threshold < b2.threshold := hlt b2 (List.mem_cons_self b2 rest2)
        have hbnn : 0 ≤ b.threshold := hnn b (List.mem_cons_self b (b2 :: rest2))
        have hb2ne : ¬b2.threshold = 0 := by intro h0; rw [h0] at hb2; linarith
        have hnn2 : ∀ x ∈ b2 :: rest2, 0 ≤ x.threshold :=
          fun x hx => hnn x (List.mem_cons_of_mem b hx)
        simp only [hb2ne, if_false]
        by_cases hv2 : v ≤ b2.threshold
        · rw [dutyLoop_cons, if_pos hv2]
          have hfilter2 :
              (b2 :: rest2).filter (fun x => decide (x.threshold < v)) = [] := by
            rw [List.filter_eq_nil_iff]
            intro x hx
            simp only [decide_eq_true_eq, not_lt]
            rcases List.mem_cons.mp hx with h | h
            · rw [h]; exact hv2
            · have := (List.pairwise_cons.mp hpw).1 x h; linarith
          rw [lastBelow, hfb, hfilter2, List.getLast?_singleton]
          rw [min_eq_left hv2]
        · push_neg at hv2
          have hne : (b2 :: rest2).filter (fun x => decide (x.threshold < v)) ≠ [] :=
            List.ne_nil_of_mem (List.mem_filter.mpr
              ⟨List.mem_cons_self b2 rest2, by simpa using hv2⟩)
          rw [ih _ hpw hnn2, lastBelow, lastBelow, hfb,
            getLast?_cons_ne_nil b hne]
          have hgl : ((b2 :: rest2).filter
              (fun x => decide (x.threshold < v))).getLast? ≠ none :=
            fun h => hne (List.getLast?_eq_none_iff.mp h)
          obtain ⟨bk, hbk⟩ := Option.ne_none_iff_exists'.mp hgl
          rw [hbk]

/-- C7 (amended): for every ascending-sorted bracket table of nonnegative
thresholds and every price that does not take the first-home concession,
`calculateStampDuty` returns 0 when the price is at or below every
threshold, and otherwise `base + (v - threshold) * rate` of the bracket
with the greatest threshold strictly below `v`, ROUNDED to the nearest
integer (`Math.round` in the source -- the rounding is what the original
claim omitted); and for every price <= 500000 with the first-home flag set
the duty is 0. -/
theorem C7_progressive_duty :
    (∀ (brackets : List Bracket) (price : ℚ),
        price ≤ 500000 → calculateStampDuty brackets price true = 0) ∧
    (∀ (brackets : List Bracket) (price : ℚ) (isFirstHome : Bool),
        brackets.Pairwise (fun a b => a.threshold < b.threshold) →
        (∀ b ∈ brackets, 0 ≤ b.threshold) →
        ¬(isFirstHome = true ∧ price ≤ 500000) →
        calculateStampDuty brackets price isFirstHome =
          match lastBelow brackets price with
          | none => 0
          | some bk =>
            ((round (bk.base + (price - bk.threshold) * bk.rate) : ℤ) : ℚ)) := by
  constructor
  · intro brackets price hp
    rw [calculateStampDuty, if_pos ⟨rfl, hp⟩]
  · intro brackets price isFirstHome hsort hnn hnc
    rw [calculateStampDuty, if_neg hnc,
      dutyLoop_spec price brackets 0 hsort hnn]
    cases lastBelow brackets price with
    | none => simp
    | some bk => rfl

/-- C7 counterexample: the claim as stated says the duty equals
`base + (v - threshold) * rate` exactly; on the table `[{threshold 100,
rate 1/2, base 0}]` at price `101` that value is `1/2`, but the source
applies `Math.round` and returns `1`. -/
theorem C7_counterexample :
    calculateStampDuty [⟨100, 1/2, 0⟩] 101 false = 1 ∧
    (0 : ℚ) + (101 - 100) * (1/2) = 1/2 ∧
    (1 : ℚ) ≠ 1/2 := by
  refine ⟨?_, by norm_num, by norm_num⟩
  rw [calculateStampDuty, if_neg (by simp)]
  norm_num [dutyLoop, round_eq, Int.floor_eq_iff]

/-- C7 witness: the amended theorem applied to the spec's canonical
bracket pair -- price 750000, not first home, duty
`17325 + (750000 - 540000) * 0.045 = 26775` -- and to a first-home
purchase at 400000, duty 0. -/
theorem C7_witness :
    calculateStampDuty [⟨5000, 7/200, 0⟩, ⟨540000, 9/200, 17325⟩]
        750000 false = 26775 ∧
    calculateStampDuty [⟨5000, 7/200, 0⟩, ⟨540000, 9/200, 17325⟩]
        400000 true = 0 := by
  constructor
  · have h := C7_progressive_duty.2
      [⟨5000, 7/200, 0⟩, ⟨540000, 9/200, 17325⟩] 750000 false
      (by norm_num [List.pairwise_cons])
      (by norm_num [List.forall_mem_cons])
      (by simp)
    rw [h]
    have hlb : lastBelow [⟨5000, 7/200, 0⟩, ⟨540000, 9/200, 17325⟩]
        (750000 : ℚ) = some ⟨540000, 9/200, 17325⟩ := by
      norm_num [lastBelow, List.filter_cons]
    rw [hlb]
    norm_num [round_eq, Int.floor_eq_iff]
  · exact C7_progressive_duty.1 _ 400000 (by norm_num)

/-!  ## C8 and C3: growth-rate analytics  -/

/-- C8: the claim states `calculateGrowthRate` raises a `DomainError`
exactly when the trailing base value is `≤ 0`, failing for a negative base
too.  The source's guard is `oldValue === 0` only (even though its own
error message says "zero or negative prices"): on the series
`[-1, 1, 1, 1, 1]` with a 1-year window the base is `-1 < 0`, the window is
4 quarters (exponent `1`, where IEEE `pow` agrees with `rpow`), and the
function returns the number `1 / (-1) - 1 = -2` instead of failing.  A zero
base does raise the error. -/
theorem C8_negative_base_accepted :
    calculateGrowthRate [-1, 1, 1, 1, 1] 1 = .ok (-2) ∧
    calculateGrowthRate [0, 1, 1, 1, 1] 1 = .error .invalidBaseValue := by
  constructor
  · simp only [calculateGrowthRate]
    norm_num [List.getD]
  · simp only [calculateGrowthRate]
    norm_num [List.getD]

/-- C3 counterexample: the claim says the CAGR exponent uses the REQUESTED
window `years` even when the series is shorter than `years·4 + 1` points.
On `[1, 4, 4, 4, 4]` with `years = 2` the window is clipped to 4 quarters:
the source returns `(4/1)^(1/1) - 1 = 3`, while the claim's formula
`(4/1)^(1/2) - 1` evaluates to `1`. -/
theorem C3_counterexample :
    calculateGrowthRate [1, 4, 4, 4, 4] 2 = .ok 3 ∧
    (((4:ℚ):ℝ) / ((1:ℚ):ℝ)) ^ ((1:ℝ)/(2:ℝ)) - 1 = 1 ∧ (3:ℝ) ≠ 1 := by
  refine ⟨?_, ?_, by norm_num⟩
  · simp only [calculateGrowthRate]
    norm_num [List.getD]
  · norm_num
    rw [← Real.sqrt_eq_rpow, show (4:ℝ) = 2^2 by norm_num,
      Real.sqrt_sq (by norm_num : (0:ℝ) ≤ 2)]
    norm_num

/-- C3 (amended): whenever the series has at least `years·4 + 1` points
(so `quartersBack` is NOT clipped) and the base value is positive, both
copies of `calculateGrowthRate` return `(latest/base)^(1/years) - 1` with
the requested `years` in the exponent.  (When the series is shorter, the
exponent instead uses the clipped window `quartersBack/4`, as the
counterexample shows.) -/
theorem C3_cagr_unclipped (data : List ℚ) (years : ℕ)
    (hy : 1 ≤ years) (hlen : years * 4 + 1 ≤ data.length)
    (hbase : 0 < data.getD (data.length - 1 - years * 4) 0) :
    calculateGrowthRate data years =
      .ok (((data.getD (data.length - 1) 0 : ℝ) /
            (data.getD (data.length - 1 - years * 4) 0 : ℝ)) ^
          ((1:ℝ)/(years:ℝ)) - 1) ∧
    calculateGrowthRateIndexData data years =
      .ok (((data.getD (data.length - 1) 0 : ℝ) /
            (data.getD (data.length - 1 - years * 4) 0 : ℝ)) ^
          ((1:ℝ)/(years:ℝ)) - 1) := by
  have h4 : ¬(data.length < 4) := by omega
  have hmin : min (years * 4) (data.length - 1) = years * 4 :=
    min_eq_left (by omega)
  have hold : ¬(data.getD (data.length - 1 - years * 4) 0 = 0) :=
    ne_of_gt hbase
  have hexp : (1:ℝ) / (((years * 4 : ℕ):ℝ)/4) = 1/(years:ℝ) := by
    push_cast
    rw [mul_div_assoc]
    norm_num
  constructor
  · simp only [calculateGrowthRate, if_neg h4, hmin, if_neg hold]
    rw [hexp]
  · simp only [calculateGrowthRateIndexData, if_neg h4, hmin]
    rw [hexp]

/-- C3 witness: the amended theorem applied to the five-point series
`[1, 1, 1, 1, 2]` with a one-year window: `(2/1)^(1/1) - 1`. -/
theorem C3_witness :
    1 ≤ 1 ∧ 1 * 4 + 1 ≤ ([1, 1, 1, 1, 2] : List ℚ).length ∧
    (0:ℚ) < ([1, 1, 1, 1, 2] : List ℚ).getD
      (([1, 1, 1, 1, 2] : List ℚ).length - 1 - 1 * 4) 0 ∧
    calculateGrowthRate [1, 1, 1, 1, 2] 1 =
      .ok ((((2:ℚ):ℝ) / ((1:ℚ):ℝ)) ^ ((1:ℝ)/(1:ℝ)) - 1) := by
  refine ⟨le_rfl, by norm_num, by norm_num [List.getD], ?_⟩
  have h := (C3_cagr_unclipped [1, 1, 1, 1, 2] 1 le_rfl (by norm_num)
    (by norm_num [List.getD])).1
  rw [h]
  norm_num [List.getD]

/-!  ## Projection-loop infrastructure  -/

/-- Length of the year loop's output. -/
theorem projLoop_length (p : Params) :
    ∀ (n year : ℕ) (s : ProjState), (projLoop p n year s).length = n := by
  intro n
  induction n with
  | zero => intro year s; rfl
  | succ n ih => intro year s; simp only [projLoop, List.length_cons, ih]

/-- The k-th record of the year loop carries year index `year + k`. -/
theorem projLoop_year (p : Params) :
    ∀ (n year : ℕ) (s : ProjState) (k : ℕ) (r : YearlyResult),
      (projLoop p n year s).get? k = some r → r.year = year + k := by
  intro n
  induction n with
  | zero => intro year s k r h; simp [projLoop] at h
  | succ n ih =>
    intro year s k r h
    simp only [projLoop] at h
    cases k with
    | zero =>
      rw [List.get?_cons_zero] at h
      rw [← Option.some.inj h]
      rfl
    | succ k =>
      rw [List.get?_cons_succ] at h
      have := ih (year + 1) _ k r h
      omega

/-- The k-th record's loan balance is `k + 1` applications of the
12-month amortization sub-simulation to the starting balance. -/
theorem projLoop_loanBalance (p : Params) :
    ∀ (n year : ℕ) (s : ProjState) (k : ℕ) (r : YearlyResult),
      (projLoop p n year s).get? k = some r →
      r.loanBalance =
        (monthLoop p.monthlyRepayment p.monthlyRate 12)^[k + 1] s.loanBalance := by
  intro n
  induction n with
  | zero => intro year s k r h; simp [projLoop] at h
  | succ n ih =>
    intro year s k r h
    simp only [projLoop] at h
    cases k with
    | zero =>
      rw [List.get?_cons_zero] at h
      rw [← Option.some.inj h]
      rfl
    | succ k =>
      rw [List.get?_cons_succ] at h
      rw [ih (year + 1) _ k r h]
      have hfst : (yearStep p s year).1.loanBalance =
          monthLoop p.monthlyRepayment p.monthlyRate 12 s.loanBalance := rfl
      rw [hfst, ← Function.iterate_succ_apply]

/-- Every record of the loop has `netPositionBuying = equity`,
`netPositionRenting = investmentBalance`, the strict-comparison advantage
flag, and the absolute-difference advantage amount, exactly as built by
`yearStep`. -/
theorem projLoop_record_shape (p : Params) :
    ∀ (n year : ℕ) (s : ProjState) (r : YearlyResult), r ∈ projLoop p n year s →
      r.netPositionBuying = r.equity ∧
      r.netPositionRenting = r.investmentBalance ∧
      (r.advantage = if r.netPositionRenting < r.netPositionBuying
        then Advantage.buying else Advantage.renting) ∧
      r.advantageAmount = |r.netPositionBuying - r.netPositionRenting| := by
  intro n
  induction n with
  | zero => intro year s r h; simp [projLoop] at h
  | succ n ih =>
    intro year s r h
    simp only [projLoop] at h
    rcases List.mem_cons.mp h with h | h
    · subst h
      exact ⟨rfl, rfl, rfl, rfl⟩
    · exact ih (year + 1) _ r h

/-- Year indices are strictly increasing along the loop's output. -/
theorem projLoop_pairwise_year (p : Params) :
    ∀ (n year : ℕ) (s : ProjState),
      (projLoop p n year s).Pairwise fun a b => a.year < b.year := by
  intro n
  induction n with
  | zero => intro year s; simp [projLoop]
  | succ n ih =>
    intro year s
    simp only [projLoop]
    rw [List.pairwise_cons]
    refine ⟨?_, ih (year + 1) _⟩
    intro r hr
    obtain ⟨k, hk⟩ := List.mem_iff_get?.mp hr
    have hy := projLoop_year p n (year + 1) _ k r hk
    have hhead : (yearStep p s year).2.year = year := rfl
    rw [hhead, hy]
    omega

/-- The k-th record's cumulative ownership cost is the starting
accumulator plus the yearly ownership costs of records `0..k` plus
`k + 1` annual repayments. -/
theorem projLoop_cumulative (p : Params) :
    ∀ (n year : ℕ) (s : ProjState) (k : ℕ) (r : YearlyResult),
      (projLoop p n year s).get? k = some r →
      r.cumulativeOwnershipCost = s.cumulativeOwnershipCost +
        (((projLoop p n year s).take (k + 1)).map
          (fun x => x.yearlyOwnershipCost)).sum +
        ((k : ℚ) + 1) * p.annualRepayment := by
  intro n
  induction n with
  | zero => intro year s k r h; simp [projLoop] at h
  | succ n ih =>
    intro year s k r h
    simp only [projLoop] at h ⊢
    cases k with
    | zero =>
      rw [List.get?_cons_zero] at h
      rw [← Option.some.inj h]
      have hcoc : (yearStep p s year).2.cumulativeOwnershipCost =
          s.cumulativeOwnershipCost +
            (yearStep p s year).2.yearlyOwnershipCost + p.annualRepayment := rfl
      rw [hcoc]
      simp only [List.take_succ_cons, List.take_zero, List.map_cons,
        List.map_nil, List.sum_cons, List.sum_nil]
      push_cast
      ring
    | succ k =>
      rw [List.get?_cons_succ] at h
      have := ih (year + 1) _ k r h
      rw [this]
      have hfstcoc : (yearStep p s year).1.cumulativeOwnershipCost =
          s.cumulativeOwnershipCost +
            (yearStep p s year).2.yearlyOwnershipCost + p.annualRepayment := rfl
      rw [hfstcoc]
      simp only [List.take_succ_cons, List.map_cons, List.sum_cons]
      push_cast
      ring

/-- On a list with strictly increasing years, the break-even scan returns
the year of the first `buying` record — every earlier record is `renting`
— and returns `none` exactly when every record is `renting`. -/
theorem find_buying_first (l : List YearlyResult)
    (hinc : l.Pairwise fun a b => a.year < b.year) :
    (∀ y, breakEvenYearOf l = some y →
      ∃ r ∈ l, r.year = y ∧ r.advantage = Advantage.buying ∧
        ∀ r' ∈ l, r'.year < y → r'.advantage = Advantage.renting) ∧
    (breakEvenYearOf l = none →
      ∀ r ∈ l, r.advantage = Advantage.renting) := by
  induction l with
  | nil => simp [breakEvenYearOf]
  | cons a l ih =>
    rw [List.pairwise_cons] at hinc
    obtain ⟨ha, hpw⟩ := hinc
    by_cases hadv : a.advantage = Advantage.buying
    · constructor
      · intro y hy
        rw [breakEvenYearOf,
          List.find?_cons_of_pos _ (by simpa using hadv)] at hy
        simp only [Option.map_some'] at hy
        refine ⟨a, List.mem_cons_self a l, Option.some.inj hy, hadv, ?_⟩
        intro r' hr' hlt
        rcases List.mem_cons.mp hr' with h | h
        · subst h
          rw [← Option.some.inj hy] at hlt
          exact absurd hlt (lt_irrefl _)
        · have := ha r' h
          rw [← Option.some.inj hy] at hlt
          exact absurd hlt (by omega)
      · intro hnone
        rw [breakEvenYearOf,
          List.find?_cons_of_pos _ (by simpa using hadv)] at hnone
        simp at hnone
    · have haren : a.advantage = Advantage.renting := by
        cases h : a.advantage
        · exact absurd h hadv
        · rfl
      have hstep : breakEvenYearOf (a :: l) = breakEvenYearOf l := by
        rw [breakEvenYearOf, breakEvenYearOf,
          List.find?_cons_of_neg _ (by simpa using hadv)]
      obtain ⟨ih1, ih2⟩ := ih hpw
      constructor
      · intro y hy
        rw [hstep] at hy
        obtain ⟨r, hrmem, hry, hradv, hfirst⟩ := ih1 y hy
        refine ⟨r, List.mem_cons_of_mem a hrmem, hry, hradv, ?_⟩
        intro r' hr' hlt
        rcases List.mem_cons.mp hr' with h | h
        · subst h; exact haren
        · exact hfirst r' h hlt
      · intro hnone r hr
        rw [hstep] at hnone
        rcases List.mem_cons.mp hr with h | h
        · subst h; exact haren
        · exact ih2 hnone r h

/-- Inversion for a successful `calculateRentVsBuy` call: the breakdown is
the year-loop timeline, the break-even field is the scan over it, and the
headline upfront/loan figures are the pre-loop computations. -/
theorem calculateRentVsBuy_parts {c : AUConstants} {inputs : PropertyInputs}
    {yearsToProject : ℕ} {res : CalculationResult}
    (h : calculateRentVsBuy c inputs yearsToProject = some res) :
    res.yearlyBreakdown = yearlyTimeline c inputs yearsToProject ∧
    res.summary.breakEvenYear =
      breakEvenYearOf (yearlyTimeline c inputs yearsToProject) ∧
    res.upfrontCosts =
      { stampDuty :=
          calculateStampDuty c.stampDutyBrackets inputs.propertyPrice
            inputs.isFirstHome
        lmi :=
          calculateLMI c (loanAmountOf inputs) inputs.propertyPrice
            inputs.isFirstHome (inputs.use5PercentScheme.getD false)
        legalFees := c.buyerLegalFees
        inspections := c.buildingInspection + c.pestInspection
        total := totalUpfrontOf c inputs } ∧
    res.loanDetails.monthlyRepayment = monthlyRepaymentOf inputs := by
  simp only [calculateRentVsBuy] at h
  cases h9 : (yearlyTimeline c inputs yearsToProject).get? 9 with
  | none =>
    rw [h9] at h
    cases h19 : (yearlyTimeline c inputs yearsToProject).get? 19 with
    | none => rw [h19] at h; simp at h
    | some y20 => rw [h19] at h; simp at h
  | some y10 =>
    rw [h9] at h
    cases h19 : (yearlyTimeline c inputs yearsToProject).get? 19 with
    | none => rw [h19] at h; simp at h
    | some y20 =>
      rw [h19] at h
      rw [← Option.some.inj h]
      exact ⟨rfl, rfl, rfl, rfl⟩

/-- With a horizon of at least 20 years the summary indices 9 and 19 are
in range and `calculateRentVsBuy` returns a result. -/
theorem calculateRentVsBuy_isSome (c : AUConstants) (inputs : PropertyInputs)
    (yearsToProject : ℕ) (hH : 20 ≤ yearsToProject) :
    (calculateRentVsBuy c inputs yearsToProject).isSome = true := by
  have hlen : (yearlyTimeline c inputs yearsToProject).length = yearsToProject :=
    projLoop_length _ _ _ _
  have h9 : (yearlyTimeline c inputs yearsToProject).get? 9 =
      some ((yearlyTimeline c inputs yearsToProject).get ⟨9, by omega⟩) :=
    List.get?_eq_get (by omega)
  have h19 : (yearlyTimeline c inputs yearsToProject).get? 19 =
      some ((yearlyTimeline c inputs yearsToProject).get ⟨19, by omega⟩) :=
    List.get?_eq_get (by omega)
  simp only [calculateRentVsBuy]
  rw [h9, h19]
  rfl

/-- C2: the claim says a 15-year horizon makes the orchestrator fail fast
with a `ConfigurationError` before indexing past the end of the timeline.
No such validation exists and no `ConfigurationError` is defined anywhere
in the source: the summary unconditionally reads `yearlyBreakdown[19]`,
which for a 15-record timeline is `undefined` in JavaScript, so the call
dies with a `TypeError` on `.advantage` — modelled here as the out-of-range
`get? 19` forcing a `none` result for EVERY configuration and input. -/
theorem C2_horizon15_no_result (c : AUConstants) (inputs : PropertyInputs) :
    calculateRentVsBuy c inputs 15 = none := by
  have hlen : (yearlyTimeline c inputs 15).length = 15 :=
    projLoop_length _ _ _ _
  have h19 : (yearlyTimeline c inputs 15).get? 19 = none :=
    List.get?_eq_none.mpr (by omega)
  simp only [calculateRentVsBuy]
  cases h9 : (yearlyTimeline c inputs 15).get? 9 with
  | none => rw [h19]
  | some y10 => rw [h19]

/-!  ## C10, C6, C9: record bookkeeping and the break-even scan  -/

/-- C10: in every record of every projection, `advantageAmount` is the
absolute value of `netPositionBuying - netPositionRenting`, hence never
negative. -/
theorem C10_advantage_amount (c : AUConstants) (inputs : PropertyInputs)
    (yearsToProject : ℕ) (res : CalculationResult)
    (h : calculateRentVsBuy c inputs yearsToProject = some res) :
    ∀ r ∈ res.yearlyBreakdown,
      r.advantageAmount = |r.netPositionBuying - r.netPositionRenting| ∧
      0 ≤ r.advantageAmount := by
  intro r hr
  rw [(calculateRentVsBuy_parts h).1] at hr
  have hs := (projLoop_record_shape (mkParams c inputs) yearsToProject 1
    (initState c inputs) r hr).2.2.2
  exact ⟨hs, hs ▸ abs_nonneg _⟩

/-- C10 witness: the theorem applied to a concrete 20-year run. -/
theorem C10_witness :
    ∃ res, calculateRentVsBuy sampleConstants positiveRateInputs 20 = some res ∧
      ∀ r ∈ res.yearlyBreakdown,
        r.advantageAmount = |r.netPositionBuying - r.netPositionRenting| ∧
        0 ≤ r.advantageAmount := by
  obtain ⟨res, h⟩ := Option.isSome_iff_exists.mp
    (calculateRentVsBuy_isSome sampleConstants positiveRateInputs 20 (by norm_num))
  exact ⟨res, h, C10_advantage_amount _ _ _ _ h⟩

/-- C6: in every record the advantage flag is `buying` iff the buying net
position strictly exceeds the renting net position (ties resolve to
`renting`, since only the strict comparison selects `buying`); and
`summary.breakEvenYear`, when present, is the year of the first
chronological record whose advantage is `buying` (every earlier year is
`renting`), and is `none` exactly when no year within the horizon has the
buying advantage. -/
theorem C6_advantage_breakeven (c : AUConstants) (inputs : PropertyInputs)
    (yearsToProject : ℕ) (res : CalculationResult)
    (h : calculateRentVsBuy c inputs yearsToProject = some res) :
    (∀ r ∈ res.yearlyBreakdown,
        (r.advantage = Advantage.buying ↔
          r.netPositionRenting < r.netPositionBuying)) ∧
    (∀ y, res.summary.breakEvenYear = some y →
        ∃ r ∈ res.yearlyBreakdown, r.year = y ∧
          r.advantage = Advantage.buying ∧
          ∀ r' ∈ res.yearlyBreakdown, r'.year < y →
            r'.advantage = Advantage.renting) ∧
    (res.summary.breakEvenYear = none →
        ∀ r ∈ res.yearlyBreakdown, r.advantage = Advantage.renting) := by
  obtain ⟨hbd, hbe, -, -⟩ := calculateRentVsBuy_parts h
  have hpw := projLoop_pairwise_year (mkParams c inputs) yearsToProject 1
    (initState c inputs)
  have hf := find_buying_first _ hpw
  refine ⟨?_, ?_, ?_⟩
  · intro r hr
    rw [hbd] at hr
    have hs := (projLoop_record_shape _ _ _ _ r hr).2.2.1
    by_cases hc : r.netPositionRenting < r.netPositionBuying
    · simp [hs, hc]
    · simp [hs, hc]
  · intro y hy
    rw [hbe] at hy
    obtain ⟨r, hrmem, hry, hradv, hfirst⟩ := hf.1 y hy
    rw [hbd]
    exact ⟨r, hrmem, hry, hradv, hfirst⟩
  · intro hnone
    rw [hbe] at hnone
    intro r hr
    rw [hbd] at hr
    exact hf.2 hnone r hr

/-- C6 witness: the advantage-iff conjunct applied to a concrete 20-year
run. -/
theorem C6_witness :
    ∃ res, calculateRentVsBuy sampleConstants zeroRateInputs 20 = some res ∧
      ∀ r ∈ res.yearlyBreakdown,
        (r.advantage = Advantage.buying ↔
          r.netPositionRenting < r.netPositionBuying) := by
  obtain ⟨res, h⟩ := Option.isSome_iff_exists.mp
    (calculateRentVsBuy_isSome sampleConstants zeroRateInputs 20 (by norm_num))
  exact ⟨res, h, (C6_advantage_breakeven _ _ _ _ h).1⟩

/-- C9: the upfront total is stamp duty + LMI + legal fees + inspections,
and every record's `cumulativeOwnershipCost` equals that upfront total
plus the per-year ownership costs of all elapsed years plus one full
annual loan repayment (`monthlyRepayment * 12`) per elapsed year — i.e.
the running figure is seeded with the purchase transaction costs, so even
year 1 includes them. -/
theorem C9_cumulative_cost (c : AUConstants) (inputs : PropertyInputs)
    (yearsToProject : ℕ) (res : CalculationResult)
    (h : calculateRentVsBuy c inputs yearsToProject = some res) :
    res.upfrontCosts.total = res.upfrontCosts.stampDuty +
      res.upfrontCosts.lmi + res.upfrontCosts.legalFees +
      res.upfrontCosts.inspections ∧
    ∀ (k : ℕ) (r : YearlyResult), res.yearlyBreakdown.get? k = some r →
      r.cumulativeOwnershipCost = res.upfrontCosts.total +
        ((res.yearlyBreakdown.take (k + 1)).map
          (fun x => x.yearlyOwnershipCost)).sum +
        ((k : ℚ) + 1) * (res.loanDetails.monthlyRepayment * 12) := by
  obtain ⟨hbd, -, hup, hmr⟩ := calculateRentVsBuy_parts h
  constructor
  · rw [hup]
    rfl
  · intro k r hk
    rw [hbd] at hk
    have hc := projLoop_cumulative (mkParams c inputs) yearsToProject 1
      (initState c inputs) k r hk
    rw [hbd, hup, hmr, hc]
    rfl

/-- C9 witness: the theorem applied to year 1 of a concrete 20-year
run. -/
theorem C9_witness :
    ∃ res, calculateRentVsBuy sampleConstants positiveRateInputs 20 = some res ∧
      ∃ r, res.yearlyBreakdown.get? 0 = some r ∧
        r.cumulativeOwnershipCost = res.upfrontCosts.total +
          ((res.yearlyBreakdown.take 1).map
            (fun x => x.yearlyOwnershipCost)).sum +
          ((0 : ℚ) + 1) * (res.loanDetails.monthlyRepayment * 12) := by
  obtain ⟨res, h⟩ := Option.isSome_iff_exists.mp
    (calculateRentVsBuy_isSome sampleConstants positiveRateInputs 20 (by norm_num))
  have hlen : res.yearlyBreakdown.length = 20 := by
    rw [(calculateRentVsBuy_parts h).1]
    exact projLoop_length _ _ _ _
  obtain ⟨r, hr⟩ : ∃ r, res.yearlyBreakdown.get? 0 = some r :=
    ⟨_, List.get?_eq_get (by omega)⟩
  refine ⟨res, h, r, hr, ?_⟩
  have := (C9_cumulative_cost _ _ _ _ h).2 0 r hr
  simpa using this

/-!  ## C5: amortization invariants

The analysis of the month loop: writing `f b = max 0 (b - (M - b*r))` for
one month and `u k = P*(1+r)^k - M*((1+r)^k - 1)/r` for the classical
unfloored annuity balance, the floored balance stays within `[0, P]` and
below `max 0 (u k)`, and at `n = term * 12` months the annuity formula
makes `u n = 0` exactly, so the floored balance is `0`.  All of this needs
a strictly positive monthly rate: at rate zero the repayment is a division
by zero (C1). -/

/-- The month update in closed form. -/
theorem monthStep_eq (M r b : ℚ) :
    monthStep M r b = max 0 (b * (1 + r) - M) := by
  simp only [monthStep]
  rw [show b - (M - b * r) = b * (1 + r) - M from by ring]

/-- The floored balance is never negative. -/
theorem monthStep_nonneg (M r b : ℚ) : 0 ≤ monthStep M r b :=
  le_max_left _ _

/-- A zero balance stays zero (the repayment is nonnegative). -/
theorem monthStep_zero (M r : ℚ) (hM : 0 ≤ M) : monthStep M r 0 = 0 := by
  rw [monthStep_eq]
  exact max_eq_left (by linarith)

/-- Zero is a fixed point of the iterated month update. -/
theorem monthStep_iterate_zero (M r : ℚ) (hM : 0 ≤ M) :
    ∀ k, (monthStep M r)^[k] 0 = 0 := by
  intro k
  induction k with
  | zero => rfl
  | succ k ih => rw [Function.iterate_succ_apply, monthStep_zero M r hM, ih]

/-- The source's early `break` on a zero balance is invisible: the month
loop equals the plain iterate of the month update. -/
theorem monthLoop_eq_iterate (M r : ℚ) (hM : 0 ≤ M) :
    ∀ (m : ℕ) (b : ℚ), monthLoop M r m b = (monthStep M r)^[m] b := by
  intro m
  induction m with
  | zero => intro b; rfl
  | succ m ih =>
    intro b
    simp only [monthLoop]
    by_cases h : monthStep M r b = 0
    · rw [if_pos h, Function.iterate_succ_apply, h,
        monthStep_iterate_zero M r hM m]
    · rw [if_neg h, Function.iterate_succ_apply, ih]

/-- One month never increases a balance in `[0, P]` when the repayment
covers the interest on `P`. -/
theorem monthStep_le (M r P b : ℚ) (hr : 0 < r) (hMge : P * r ≤ M)
    (hb0 : 0 ≤ b) (hbP : b ≤ P) : monthStep M r b ≤ b := by
  rw [monthStep_eq]
  have hbr : b * r ≤ P * r := mul_le_mul_of_nonneg_right hbP hr.le
  exact max_le hb0 (by linarith)

/-- Iterated months keep the balance in `[0, P]` and never increase it. -/
theorem monthStep_iterate_bounds (M r P : ℚ) (hr : 0 < r) (hMge : P * r ≤ M) :
    ∀ (m : ℕ) (b : ℚ), 0 ≤ b → b ≤ P →
      (monthStep M r)^[m] b ≤ b ∧ 0 ≤ (monthStep M r)^[m] b ∧
      (monthStep M r)^[m] b ≤ P := by
  intro m
  induction m with
  | zero => intro b hb0 hbP; exact ⟨le_rfl, hb0, hbP⟩
  | succ m ih =>
    intro b hb0 hbP
    rw [Function.iterate_succ_apply]
    have hstep := monthStep_le M r P b hr hMge hb0 hbP
    have h0 := monthStep_nonneg M r b
    obtain ⟨h1, h2, h3⟩ := ih (monthStep M r b) h0 (le_trans hstep hbP)
    exact ⟨le_trans h1 hstep, h2, h3⟩

/-- The annuity repayment covers the interest on the principal. -/
theorem repayment_ge (P r : ℚ) (n : ℕ) (hr : 0 < r) (hP : 0 ≤ P) (hn : n ≠ 0) :
    P * r ≤ P * r * (1 + r) ^ n / ((1 + r) ^ n - 1) := by
  have hq : 1 < (1 + r) ^ n := one_lt_pow₀ (by linarith) hn
  rw [le_div_iff₀ (by linarith)]
  nlinarith [mul_nonneg hP hr.le]

/-- After exactly `n` months at the annuity repayment the floored balance
is `0`. -/
theorem monthStep_iterate_payoff (P r : ℚ) (n : ℕ) (hr : 0 < r) (hP : 0 ≤ P)
    (hn : n ≠ 0) :
    (monthStep (P * r * (1 + r) ^ n / ((1 + r) ^ n - 1)) r)^[n] P = 0 := by
  have hq1 : (0 : ℚ) < 1 + r := by linarith
  have hqn : 1 < (1 + r) ^ n := one_lt_pow₀ (by linarith) hn
  have hMge : P * r ≤ P * r * (1 + r) ^ n / ((1 + r) ^ n - 1) :=
    repayment_ge P r n hr hP hn
  have hM0 : 0 ≤ P * r * (1 + r) ^ n / ((1 + r) ^ n - 1) :=
    le_trans (mul_nonneg hP hr.le) hMge
  set M := P * r * (1 + r) ^ n / ((1 + r) ^ n - 1) with hMdef
  have hu_succ : ∀ k : ℕ,
      P * (1 + r) ^ (k + 1) - M * (((1 + r) ^ (k + 1) - 1) / r) =
        (P * (1 + r) ^ k - M * (((1 + r) ^ k - 1) / r)) * (1 + r) - M := by
    intro k
    field_simp
    ring
  have hsand : ∀ k : ℕ, (monthStep M r)^[k] P ≤
      max 0 (P * (1 + r) ^ k - M * (((1 + r) ^ k - 1) / r)) := by
    intro k
    induction k with
    | zero => simp
    | succ k ih =>
      rw [Function.iterate_succ_apply']
      by_cases hu : 0 ≤ P * (1 + r) ^ k - M * (((1 + r) ^ k - 1) / r)
      · have hx : (monthStep M r)^[k] P ≤
            P * (1 + r) ^ k - M * (((1 + r) ^ k - 1) / r) := by
          rw [max_eq_right hu] at ih
          exact ih
        rw [monthStep_eq, hu_succ k]
        refine max_le_max le_rfl ?_
        have := mul_le_mul_of_nonneg_right hx hq1.le
        linarith
      · push_neg at hu
        have hx0 : 0 ≤ (monthStep M r)^[k] P :=
          (monthStep_iterate_bounds M r P hr hMge k P hP le_rfl).2.1
        have hx1 : (monthStep M r)^[k] P ≤ 0 := by
          rw [max_eq_left hu.le] at ih
          exact ih
        have hx : (monthStep M r)^[k] P = 0 := le_antisymm hx1 hx0
        rw [hx, monthStep_zero M r hM0]
        exact le_max_left _ _
  have hun : P * (1 + r) ^ n - M * (((1 + r) ^ n - 1) / r) = 0 := by
    have hd : (1 + r) ^ n - 1 ≠ 0 := sub_ne_zero_of_ne (ne_of_gt hqn)
    rw [hMdef]
    field_simp
    ring
  have h1 := hsand n
  rw [hun] at h1
  simp only [max_self] at h1
  exact le_antisymm h1
    (monthStep_iterate_bounds M r P hr hMge n P hP le_rfl).2.1

/-- C5 (amended): for inputs satisfying the §3 invariants with a STRICTLY
positive interest rate (the original claim's `interestRate ≥ 0` fails at
rate zero — see the counterexample), every projection has adjacent-year
loan balances non-increasing, no negative balance anywhere, and — when the
horizon covers the loan term — a balance of exactly `0` at the record whose
year is the contractual term (hence at or before the term's end). -/
theorem C5_loan_invariants (c : AUConstants) (inputs : PropertyInputs)
    (yearsToProject : ℕ) (res : CalculationResult)
    (h : calculateRentVsBuy c inputs yearsToProject = some res)
    (hdep : 0 < inputs.deposit)
    (hdp : inputs.deposit ≤ inputs.propertyPrice)
    (hterm : 1 ≤ inputs.loanTermYears)
    (hrate : 0 < inputs.loanInterestRate) :
    (∀ (k : ℕ) (r1 r2 : YearlyResult),
        res.yearlyBreakdown.get? k = some r1 →
        res.yearlyBreakdown.get? (k + 1) = some r2 →
        r2.loanBalance ≤ r1.loanBalance) ∧
    (∀ r ∈ res.yearlyBreakdown, 0 ≤ r.loanBalance) ∧
    (inputs.loanTermYears ≤ yearsToProject →
        ∀ r ∈ res.yearlyBreakdown, r.year = inputs.loanTermYears →
          r.loanBalance = 0) := by
  obtain ⟨hbd, -, -, -⟩ := calculateRentVsBuy_parts h
  have hmr : (0:ℚ) < inputs.loanInterestRate / 12 := by positivity
  have hP0 : (0:ℚ) ≤ loanAmountOf inputs := sub_nonneg.mpr hdp
  have hn : inputs.loanTermYears * 12 ≠ 0 := by omega
  have hMdef : monthlyRepaymentOf inputs =
      loanAmountOf inputs * (inputs.loanInterestRate / 12) *
        (1 + inputs.loanInterestRate / 12) ^ (inputs.loanTermYears * 12) /
        ((1 + inputs.loanInterestRate / 12) ^ (inputs.loanTermYears * 12) -
          1) := rfl
  have hMge : loanAmountOf inputs * (inputs.loanInterestRate / 12) ≤
      monthlyRepaymentOf inputs := by
    rw [hMdef]
    exact repayment_ge _ _ _ hmr hP0 hn
  have hM0 : 0 ≤ monthlyRepaymentOf inputs :=
    le_trans (mul_nonneg hP0 hmr.le) hMge
  have hloop : monthLoop (monthlyRepaymentOf inputs)
      (inputs.loanInterestRate / 12) 12 =
      (monthStep (monthlyRepaymentOf inputs)
        (inputs.loanInterestRate / 12))^[12] :=
    funext (monthLoop_eq_iterate _ _ hM0 12)
  have hbal : ∀ (k : ℕ) (r : YearlyResult),
      res.yearlyBreakdown.get? k = some r →
      r.loanBalance =
        (monthStep (monthlyRepaymentOf inputs)
          (inputs.loanInterestRate / 12))^[12 * (k + 1)]
          (loanAmountOf inputs) := by
    intro k r hk
    rw [hbd] at hk
    have hb := projLoop_loanBalance (mkParams c inputs) yearsToProject 1
      (initState c inputs) k r hk
    rw [hb, Function.iterate_mul]
    rw [show (mkParams c inputs).monthlyRepayment = monthlyRepaymentOf inputs
        from rfl,
      show (mkParams c inputs).monthlyRate = inputs.loanInterestRate / 12
        from rfl,
      show (initState c inputs).loanBalance = loanAmountOf inputs from rfl,
      hloop]
  refine ⟨?_, ?_, ?_⟩
  · intro k r1 r2 h1 h2
    rw [hbal k r1 h1, hbal (k + 1) r2 h2]
    rw [show 12 * (k + 1 + 1) = 12 + 12 * (k + 1) from by ring,
      Function.iterate_add_apply]
    have hb := monthStep_iterate_bounds _ _ _ hmr hMge (12 * (k + 1))
      (loanAmountOf inputs) hP0 le_rfl
    exact (monthStep_iterate_bounds _ _ _ hmr hMge 12 _ hb.2.1 hb.2.2).1
  · intro r hr
    obtain ⟨k, hk⟩ := List.mem_iff_get?.mp hr
    rw [hbal k r hk]
    exact (monthStep_iterate_bounds _ _ _ hmr hMge _ _ hP0 le_rfl).2.1
  · intro hT r hr hyear
    obtain ⟨k, hk⟩ := List.mem_iff_get?.mp hr
    have hy : r.year = 1 + k := by
      rw [hbd] at hk
      exact projLoop_year _ _ _ _ k r hk
    rw [hbal k r hk,
      show 12 * (k + 1) = inputs.loanTermYears * 12 from by omega, hMdef]
    exact monthStep_iterate_payoff _ _ _ hmr hP0 hn

/-- C5 witness: the amended theorem applied to a concrete 20-year run with
a one-year term and a positive rate. -/
theorem C5_witness :
    ∃ res, calculateRentVsBuy sampleConstants positiveRateInputs 20 =
        some res ∧
      (∀ r ∈ res.yearlyBreakdown, 0 ≤ r.loanBalance) ∧
      (∀ r ∈ res.yearlyBreakdown, r.year = positiveRateInputs.loanTermYears →
          r.loanBalance = 0) := by
  obtain ⟨res, h⟩ := Option.isSome_iff_exists.mp
    (calculateRentVsBuy_isSome sampleConstants positiveRateInputs 20
      (by norm_num))
  have hc := C5_loan_invariants _ _ _ _ h
    (by norm_num [positiveRateInputs])
    (by norm_num [positiveRateInputs])
    (by norm_num [positiveRateInputs])
    (by norm_num [positiveRateInputs])
  exact ⟨res, h, hc.2.1, hc.2.2 (by norm_num [positiveRateInputs])⟩

set_option maxHeartbeats 2000000 in
/-- C5 counterexample: the claim as stated allows `interestRate = 0`.  At
price 100, deposit 50, rate 0, term 1, horizon 20 (≥ term) the source
computes `monthlyRepayment = NaN` (0/0) and the monthly balance becomes
`NaN`; in the `ℚ` embedding (division by zero = 0) the repayment is `0` and
the balance never moves.  Either way the year-1 record — the only year at
or before the 1-year term — carries balance 50 ≠ 0, refuting "the balance
equals exactly 0 at or before the end of the contractual term". -/
theorem C5_counterexample :
    0 < zeroRateInputs.deposit ∧
    zeroRateInputs.deposit ≤ zeroRateInputs.propertyPrice ∧
    1 ≤ zeroRateInputs.loanTermYears ∧
    0 ≤ zeroRateInputs.loanInterestRate ∧
    zeroRateInputs.loanTermYears ≤ 20 ∧
    ((calculateRentVsBuy sampleConstants zeroRateInputs 20).bind
        (fun res => res.yearlyBreakdown.get? 0)).map
      (fun r => (r.year, r.loanBalance)) = some (1, 50) ∧
    (50 : ℚ) ≠ 0 := by
  refine ⟨by norm_num [zeroRateInputs], by norm_num [zeroRateInputs],
    by norm_num [zeroRateInputs], by norm_num [zeroRateInputs],
    by norm_num [zeroRateInputs], ?_, by norm_num⟩
  norm_num [calculateRentVsBuy, yearlyTimeline, projLoop, yearStep, monthLoop,
    monthStep, investmentUpdate, mkParams, initState, loanAmountOf,
    monthlyRepaymentOf, calculateMonthlyRepayment, totalUpfrontOf,
    calculateStampDuty, calculateLMI, dutyLoop, breakEvenYearOf,
    round_eq, Int.floor_eq_iff, sampleConstants, zeroRateInputs]

end RentVsBuy


